import Mathlib

/-!
Verification of the qutip-qoc core (JOPT gradient objective and TimeInterval
time grid) against its natural-language specification.

Shallow embedding conventions:
* real scalars (times, parameter values) are modelled as `ℚ` where the code
  is pure arithmetic, so that properties are decidable on concrete inputs;
  genuinely analytic quantities (complex magnitudes, matrix traces) use
  `ℂ`/`ℝ`;
* Python code that can raise is modelled with `Except String`;
* Python truthiness tests (`if self._evo_time:`) are modelled explicitly
  (`None` and `0.0` are falsy, a nonzero float is truthy; `None` and an
  empty list are falsy, a non-empty list is truthy).
-/

namespace QutipQoc

open scoped Matrix

/-! ## Time grid: `src/qutip_qoc/time.py` -/

/-- `np.linspace(start, stop, num)` with `endpoint=True` (the default used by
`TimeInterval.tslots`), in exact rational arithmetic: `num` samples
`start + i * (stop - start) / (num - 1)`; `num = 0` gives `[]`,
`num = 1` gives `[start]`. -/
def linspace (start stop : ℚ) (num : ℕ) : List ℚ :=
  if num = 0 then []
  else if num = 1 then [start]
  else (List.range num).map (fun i : ℕ => start + (stop - start) / ((num : ℚ) - 1) * (i : ℚ))

/-- The constructor state of `TimeInterval.__init__` (time.py lines 27-30):
`self._tslots = tslots`, `self._evo_time = evo_time`,
`self._n_tslots = n_tslots`.  The Python defaults are
`tslots=None, evo_time=None, n_tslots=100`, i.e. `⟨none, none, some 100⟩`. -/
structure TimeInterval where
  raw_tslots : Option (List ℚ)
  raw_evo_time : Option ℚ
  raw_n_tslots : Option ℕ

/-- The `n_tslots` property (time.py lines 50-59): if `self._n_tslots is None`,
derive it as `len(self._tslots)` when `self._tslots` is truthy (non-None and
non-empty), else raise `ValueError`. -/
def TimeInterval.n_tslots (ti : TimeInterval) : Except String ℕ :=
  match ti.raw_n_tslots with
  | some n => .ok n
  | none =>
    match ti.raw_tslots with
    | some ts =>
      if ts.isEmpty then
        .error "ValueError: Either tslots or evo_time + n_tslots must be specified."
      else
        .ok ts.length
    | none => .error "ValueError: Either tslots or evo_time + n_tslots must be specified."

/-- The `tslots` property (time.py lines 35-41): if `self._tslots is None`,
first read `self.n_tslots` (which can raise), then — only when
`self._evo_time` is truthy (non-None and nonzero) — derive
`np.linspace(0.0, self._evo_time, n_tslots)`; otherwise the stored
(possibly `None`) value is returned. -/
def TimeInterval.tslots (ti : TimeInterval) : Except String (Option (List ℚ)) :=
  match ti.raw_tslots with
  | some ts => .ok (some ts)
  | none =>
    (ti.n_tslots).bind fun n =>
      match ti.raw_evo_time with
      | some T => if T = 0 then .ok none else .ok (some (linspace 0 T n))
      | none => .ok none

/-- The `evo_time` property (time.py lines 43-48): if `self._evo_time is None`,
read `self.tslots` and take `tslots[-1]`; subscripting `None` raises
`TypeError` and subscripting an empty list raises `IndexError`. -/
def TimeInterval.evo_time (ti : TimeInterval) : Except String ℚ :=
  match ti.raw_evo_time with
  | some T => .ok T
  | none =>
    (ti.tslots).bind fun ts? =>
      match ts? with
      | none => .error "TypeError: NoneType object is not subscriptable"
      | some ts =>
        match ts.getLast? with
        | some x => .ok x
        | none => .error "IndexError: list index out of range"

/-- Spec-side formalisation of "`N` evenly spaced time instants from `0` to
`T` inclusive": length `N`, first instant `0`, last instant `T`, and the
`i`-th instant equal to `T * i / (N - 1)`. -/
def isEvenGrid (T : ℚ) (N : ℕ) (ts : List ℚ) : Bool :=
  (ts.length == N) && (ts.head? == some 0) && (ts.getLast? == some T) &&
    (List.range N).all fun i => ts[i]? == some (T * (i : ℚ) / ((N : ℚ) - 1))

/-! ## JOPT: `src/qutip_qoc/jopt.py` -/

/-- The wrapped magnitude primitive (jopt.py lines 18-20): `abs(x) = jnp.abs(x)`,
the complex modulus. -/
noncomputable def abs (x : ℂ) : ℝ := Complex.abs x

/-- The registered custom forward-mode derivative rule for `abs`
(jopt.py lines 23-37): on primal `x` with tangent `t`, the primal output is
`abs(x)` and the tangent output is `jnp.where(abs_x == 0, 0.0,
jnp.real(jnp.multiply(jnp.conj(x), t)) / abs_x)`. -/
noncomputable def abs_jvp (x t : ℂ) : ℝ × ℝ :=
  let abs_x := abs x
  (abs_x, if abs_x = 0 then 0 else ((starRingEnd ℂ) x * t).re / abs_x)

/-- One control term of the generator: a fixed operator `hc` together with a
scalar coefficient function of time and a parameter vector
(jopt.py `Hc = [hc, ctrl]`).  Times and parameters are rationals; the
coefficient value is complex. -/
structure ControlTerm (d : ℕ) where
  hc : Matrix (Fin d) (Fin d) ℂ
  coef : ℚ → List ℚ → ℂ

/-- Python slice `p[lower:upper]` on a list (clamped at the list's length,
empty when `lower ≥ upper`). -/
def pySlice {α : Type} (p : List α) (lower upper : ℕ) : List α :=
  (p.take upper).drop lower

/-- The `helper` closure of `JOPT._prepare_generator` (jopt.py lines 107-109):
wraps a coefficient function so that it only receives `p[lower:upper]` of the
global parameter vector. -/
def helper (control : ℚ → List ℚ → ℂ) (lower upper : ℕ) : ℚ → List ℚ → ℂ :=
  fun t p => control t (pySlice p lower upper)

/-- The control-term loop of `JOPT._prepare_generator` (jopt.py lines 112-124):
`zip(self.Hc_lst, self.control_parameters.values())` pairs each control with
its parameter options (silently truncating to the shorter list), takes
`M = len(guess)`, wraps the coefficient with `helper(ctrl, idx, idx + M)` and
advances `idx += M`.  `control_parameters` is modelled by its ordered list of
guess vectors. -/
def prepareTerms {d : ℕ} :
    List (ControlTerm d) → List (List ℚ) → ℕ → List (ControlTerm d)
  | Hc :: Hc_lst, guess :: guesses, idx =>
    ⟨Hc.hc, helper Hc.coef idx (idx + guess.length)⟩ ::
      prepareTerms Hc_lst guesses (idx + guess.length)
  | _, _, _ => []

/-- The cumulative parameter offset of the `k`-th control: the sum of the
guess-vector lengths of all preceding controls (the value of `idx` when the
loop of `_prepare_generator` reaches control `k`). -/
def offsetAt (guesses : List (List ℚ)) (k : ℕ) : ℕ :=
  ((guesses.take k).map List.length).sum

/-- The evaluated generator: drift plus the sum of each wrapped coefficient
times its operator, `H(t, p) = Hd + Σ_k coef_k(t, p) • hc_k`
(`QobjEvo` pairs `[hc, f]` mean `f(t, p) * hc`). -/
noncomputable def evalGenerator {d : ℕ} (Hd : Matrix (Fin d) (Fin d) ℂ)
    (terms : List (ControlTerm d)) (t : ℚ) (p : List ℚ) : Matrix (Fin d) (Fin d) ℂ :=
  Hd + (terms.map fun c => c.coef t p • c.hc).sum

/-- The fidelity-relevant state built by `JOPT.__init__`: the stored
fidelity-kind string and the wrapped control terms.  The solver/integrator
configuration (diffrax, jax.jit) is external and not modelled. -/
structure JOPTState (d : ℕ) where
  fid_type : String
  terms : List (ControlTerm d)

/-- The fidelity-relevant part of `JOPT.__init__` (jopt.py lines 50-98),
modelled with `Except` to represent Python exceptions: the generator is built
by `_prepare_generator`, and `fid_type = alg_kwargs.get("fid_type", default)`
where the default is `"TRACEDIFF"` for a superoperator drift and `"PSU"`
otherwise.  The source performs no validation of the fidelity-kind string and
no length checks, so no error path exists. -/
def jinit (d : ℕ) (issuper : Bool) (fid_opt : Option String)
    (Hc_lst : List (ControlTerm d)) (control_parameters : List (List ℚ)) :
    Except String (JOPTState d) :=
  .ok ⟨fid_opt.getD (if issuper then "TRACEDIFF" else "PSU"),
       prepareTerms Hc_lst control_parameters 0⟩

/-- `qutip` overlap `target.overlap(X)`: `Tr(target† X)` (which for column
vectors embedded as matrices is the inner product `⟨target, X⟩`). -/
noncomputable def overlap {d : ℕ} (A B : Matrix (Fin d) (Fin d) ℂ) : ℂ :=
  (Aᴴ * B).trace

/-- The fidelity computation of `JOPT._infid` (jopt.py lines 139-153) given the
final state/operator `X` produced by the evolution engine, the target, and the
stored `norm_fac` (`1 / target.norm()` computed at setup).  When `fid_type`
matches none of the three branch strings, the local variable `infid` is never
assigned and `return infid` raises `UnboundLocalError`. -/
noncomputable def infid {d : ℕ} (fid_type : String) (norm_fac : ℝ)
    (target X : Matrix (Fin d) (Fin d) ℂ) : Except String ℝ :=
  if fid_type = "TRACEDIFF" then
    let diff := X - target
    let diff_dag := diffᴴ
    let g := (1 / 2 : ℂ) * (diff_dag * diff).trace
    .ok (((norm_fac : ℂ) * g).re)
  else
    let g := (norm_fac : ℂ) * overlap target X
    if fid_type = "PSU" then .ok (1 - abs g)
    else if fid_type = "SU" then .ok (1 - g.re)
    else .error "UnboundLocalError: local variable referenced before assignment"

/-- Spec-side TRACEDIFF error (spec 4.4): with `D = X − target`,
`error = Re(normalization · ½ · trace(D† · D))`. -/
noncomputable def infidSpecTRACEDIFF {d : ℕ} (normalization : ℝ)
    (target X : Matrix (Fin d) (Fin d) ℂ) : ℝ :=
  ((normalization : ℂ) * (1 / 2) * ((X - target)ᴴ * (X - target)).trace).re

/-- Spec-side PSU error (spec 4.4): with `g = normalization · ⟨target, X⟩`,
`error = 1 − |g|` using the custom magnitude. -/
noncomputable def infidSpecPSU {d : ℕ} (normalization : ℝ)
    (target X : Matrix (Fin d) (Fin d) ℂ) : ℝ :=
  1 - abs ((normalization : ℂ) * overlap target X)

/-- Spec-side SU error (spec 4.4): `error = 1 − Re(g)`. -/
noncomputable def infidSpecSU {d : ℕ} (normalization : ℝ)
    (target X : Matrix (Fin d) (Fin d) ℂ) : ℝ :=
  1 - ((normalization : ℂ) * overlap target X).re

/-- A concrete 1×1 control term used on concrete inputs: coefficient
`p[0] * t`. -/
noncomputable def ctrlA : ControlTerm 1 :=
  ⟨1, fun t p => ((p.headI * t : ℚ) : ℂ)⟩

/-- A second concrete 1×1 control term: coefficient `p[0] + t`. -/
noncomputable def ctrlB : ControlTerm 1 :=
  ⟨1, fun t p => ((p.headI + t : ℚ) : ℂ)⟩

/-! ## Helper lemmas -/

theorem pySlice_getElem? {α : Type} (p : List α) (a b i : ℕ) :
    (pySlice p a b)[i]? = if a + i < b then p[a + i]? else none := by
  unfold pySlice
  rw [List.getElem?_drop, List.getElem?_take]

theorem pySlice_congr {α : Type} (p q : List α) (a b : ℕ)
    (h : ∀ i, a ≤ i → i < b → p[i]? = q[i]?) :
    pySlice p a b = pySlice q a b := by
  apply List.ext_getElem?
  intro i
  rw [pySlice_getElem?, pySlice_getElem?]
  by_cases hi : a + i < b
  · rw [if_pos hi, if_pos hi]
    exact h (a + i) (Nat.le_add_right a i) hi
  · rw [if_neg hi, if_neg hi]

theorem offsetAt_zero (gs : List (List ℚ)) : offsetAt gs 0 = 0 := rfl

theorem offsetAt_succ_cons (g : List ℚ) (gs : List (List ℚ)) (k : ℕ) :
    offsetAt (g :: gs) (k + 1) = g.length + offsetAt gs k := by
  simp [offsetAt, List.take_succ_cons]

theorem offsetAt_mono (gs : List (List ℚ)) (j k : ℕ) (h : j ≤ k) :
    offsetAt gs j ≤ offsetAt gs k := by
  induction gs generalizing j k with
  | nil => simp [offsetAt]
  | cons g gs ih =>
    cases j with
    | zero => exact Nat.zero_le _
    | succ j =>
      cases k with
      | zero => omega
      | succ k =>
        rw [offsetAt_succ_cons, offsetAt_succ_cons]
        exact Nat.add_le_add_left (ih j k (Nat.le_of_succ_le_succ h)) _

theorem offsetAt_succ (gs : List (List ℚ)) (k : ℕ) (h : k < gs.length) :
    offsetAt gs (k + 1) = offsetAt gs k + (gs.get ⟨k, h⟩).length := by
  induction gs generalizing k with
  | nil => simp at h
  | cons g gs ih =>
    cases k with
    | zero => simp [offsetAt_succ_cons, offsetAt_zero]
    | succ k =>
      have h' : k < gs.length := by simpa using h
      rw [offsetAt_succ_cons, offsetAt_succ_cons, ih k h']
      simp [Nat.add_assoc]

theorem prepareTerms_length {d : ℕ} (cs : List (ControlTerm d)) (gs : List (List ℚ))
    (idx : ℕ) : (prepareTerms cs gs idx).length = min cs.length gs.length := by
  induction cs generalizing gs idx with
  | nil => cases gs <;> simp [prepareTerms]
  | cons c cs ih =>
    cases gs with
    | nil => simp [prepareTerms]
    | cons g gs =>
      simp only [prepareTerms, List.length_cons, ih]
      omega

theorem prepareTerms_getElem? {d : ℕ} (cs : List (ControlTerm d)) (gs : List (List ℚ))
    (idx k : ℕ) (hk : k < cs.length) (hg : k < gs.length) :
    (prepareTerms cs gs idx)[k]?
      = some ⟨(cs.get ⟨k, hk⟩).hc,
              helper (cs.get ⟨k, hk⟩).coef (idx + offsetAt gs k)
                (idx + offsetAt gs k + (gs.get ⟨k, hg⟩).length)⟩ := by
  induction k generalizing cs gs idx with
  | zero =>
    cases cs with
    | nil => simp at hk
    | cons c cs =>
      cases gs with
      | nil => simp at hg
      | cons g gs => simp [prepareTerms, offsetAt_zero]
  | succ k ih =>
    cases cs with
    | nil => simp at hk
    | cons c cs =>
      cases gs with
      | nil => simp at hg
      | cons g gs =>
        have hk' : k < cs.length := by simpa using hk
        have hg' : k < gs.length := by simpa using hg
        rw [show prepareTerms (c :: cs) (g :: gs) idx
              = ⟨c.hc, helper c.coef idx (idx + g.length)⟩ ::
                prepareTerms cs gs (idx + g.length) from rfl,
          List.getElem?_cons_succ]
        rw [ih cs gs (idx + g.length) hk' hg']
        simp [offsetAt_succ_cons, Nat.add_assoc]

/-! ## Claim theorems: time grid -/

/-- Claim C9: a TimeInterval constructed with both an explicit tslots sequence
and an evo_time value raises no error; `tslots` returns the explicit sequence
unchanged and `evo_time` returns the supplied value — even when that value
differs from the last element of the sequence — so the invariant "final
instant of tslots = evolution time" is not enforced across all
constructions. -/
theorem C9_explicit_tslots_and_evo_time_coexist (ts : List ℚ) (T : ℚ)
    (n : Option ℕ) :
    TimeInterval.tslots ⟨some ts, some T, n⟩ = .ok (some ts) ∧
    TimeInterval.evo_time ⟨some ts, some T, n⟩ = .ok T :=
  ⟨rfl, rfl⟩

/-- Claim C10: a TimeInterval constructed with `evo_time = 0.0` and no explicit
tslots sequence (Python default `n_tslots = 100`) returns `None` from the
`tslots` property without raising: the derivation tests the truthiness of the
stored evolution time, and `0.0` is falsy. -/
theorem C10_zero_evo_time_gives_none :
    TimeInterval.tslots ⟨none, some 0, some 100⟩ = .ok none := rfl

/-- Claim C6 (code bug evaluation): constructing a TimeInterval with only the
explicit sequence `[0, 1, 2]` (Python default `n_tslots = 100`) yields
`evo_time = 2` (the last element, as claimed) but `n_tslots = 100`, not the
sequence's length 3 — the default `n_tslots=100` shadows the documented
"length of tslots" derivation, contradicting the class docstring. -/
theorem C6_n_tslots_default_overrides_length :
    TimeInterval.evo_time ⟨some [0, 1, 2], none, some 100⟩ = .ok 2 ∧
    TimeInterval.n_tslots ⟨some [0, 1, 2], none, some 100⟩ = .ok 100 :=
  ⟨rfl, rfl⟩

/-- Claim C5 (counterexample): with `evo_time = 1` and `n_tslots = 1` the
`tslots` property returns the single instant `[0]`, which is not "1 evenly
spaced instant from 0 to 1 inclusive" — the final instant is 0, not the total
time 1. -/
theorem C5_counterexample :
    TimeInterval.tslots ⟨none, some 1, some 1⟩ = .ok (some [0]) ∧
    isEvenGrid 1 1 [0] = false :=
  ⟨rfl, rfl⟩

/-- Claim C5 (amended): for every nonzero total time `T` and slot count
`N ≥ 2`, a TimeInterval constructed with `evo_time = T` and `n_tslots = N`
has `tslots = linspace(0, T, N)`, which is `N` evenly spaced instants from
`0` to `T` inclusive.  (The code returns `None` for `T = 0` because `0.0` is
falsy, and for `N ≤ 1` the derived grid degenerates to `[]` or `[0]`.) -/
theorem C5_evo_time_n_tslots_grid (T : ℚ) (N : ℕ) (hT : T ≠ 0) (hN : 2 ≤ N) :
    TimeInterval.tslots ⟨none, some T, some N⟩ = .ok (some (linspace 0 T N)) ∧
    isEvenGrid T N (linspace 0 T N) = true := by
  have h0 : N ≠ 0 := by omega
  have h1 : N ≠ 1 := by omega
  have hcast : ((N : ℚ) - 1) ≠ 0 :=
    sub_ne_zero.mpr (by exact_mod_cast h1)
  have hls : linspace 0 T N
      = (List.range N).map (fun i : ℕ => 0 + (T - 0) / ((N : ℚ) - 1) * (i : ℚ)) := by
    unfold linspace
    rw [if_neg h0, if_neg h1]
  constructor
  · have hred : TimeInterval.tslots ⟨none, some T, some N⟩
        = if T = 0 then Except.ok none else Except.ok (some (linspace 0 T N)) := rfl
    rw [hred, if_neg hT]
  · rw [hls]
    simp only [isEvenGrid, Bool.and_eq_true, beq_iff_eq, List.all_eq_true]
    refine ⟨⟨⟨?_, ?_⟩, ?_⟩, ?_⟩
    · simp
    · rw [List.head?_eq_getElem?]
      rw [List.getElem?_map, List.getElem?_range (by omega : 0 < N)]
      simp
    · rw [List.getLast?_eq_getElem?]
      simp only [List.length_map, List.length_range]
      rw [List.getElem?_map, List.getElem?_range (by omega : N - 1 < N)]
      have hc1 : ((N - 1 : ℕ) : ℚ) = (N : ℚ) - 1 := by
        push_cast [Nat.cast_sub (by omega : 1 ≤ N)]
        ring
      simp only [Option.map_some']
      rw [hc1, zero_add, sub_zero, div_mul_cancel₀ _ hcast]
    · intro i hi
      have hiN : i < N := List.mem_range.mp hi
      rw [List.getElem?_map, List.getElem?_range hiN]
      simp only [Option.map_some']
      rw [zero_add, sub_zero, div_mul_eq_mul_div]

/-- Claim C5 (witness): the amended statement at `T = 2`, `N = 3`. -/
theorem C5_evo_time_n_tslots_grid_witness :
    TimeInterval.tslots ⟨none, some 2, some 3⟩ = .ok (some (linspace 0 2 3)) ∧
    isEvenGrid 2 3 (linspace 0 2 3) = true :=
  C5_evo_time_n_tslots_grid 2 3 (by norm_num) (by norm_num)

/-! ## Claim theorems: JOPT -/

/-- Claim C2: the custom magnitude `abs` returns `|x|`, and its registered
derivative rule `abs_jvp` returns primal `|x|` with tangent `0` when
`|x| = 0` and `Re(conj(x) · t) / |x|` otherwise; in particular at `x = 0` the
derivative is the defined, finite value `0` (no division by zero is
propagated). -/
theorem C2_abs_jvp_magnitude_rule (x t : ℂ) :
    abs x = Complex.abs x ∧
    abs_jvp x t
      = (Complex.abs x,
         if Complex.abs x = 0 then 0
         else ((starRingEnd ℂ) x * t).re / Complex.abs x) ∧
    abs_jvp 0 t = (0, 0) := by
  refine ⟨rfl, rfl, ?_⟩
  simp [abs_jvp, abs]

/-- Claim C3: given the final state/operator `X` produced by the evolution
engine, `_infid` computes the error from `X`, the target and the setup-time
normalization factor exactly by fidelity kind: TRACEDIFF gives
`Re(normalization · ½ · trace(D† D))` with `D = X − target`, PSU gives
`1 − |normalization · ⟨target, X⟩|` with the custom magnitude, and SU gives
`1 − Re(normalization · ⟨target, X⟩)`. -/
theorem C3_infid_matches_spec_formulas {d : ℕ} (norm_fac : ℝ)
    (target X : Matrix (Fin d) (Fin d) ℂ) :
    infid "TRACEDIFF" norm_fac target X
        = .ok (infidSpecTRACEDIFF norm_fac target X) ∧
    infid "PSU" norm_fac target X = .ok (infidSpecPSU norm_fac target X) ∧
    infid "SU" norm_fac target X = .ok (infidSpecSU norm_fac target X) := by
  refine ⟨?_, rfl, rfl⟩
  rw [show infid "TRACEDIFF" norm_fac target X
      = Except.ok (((norm_fac : ℂ)
          * ((1 / 2 : ℂ) * ((X - target)ᴴ * (X - target)).trace)).re) from rfl]
  unfold infidSpecTRACEDIFF
  rw [mul_assoc]

/-- Claim C7 (counterexample): the fidelity-kind string `"SUU"` is not one of
TRACEDIFF/PSU/SU, yet constructing the JOPT object succeeds — `__init__`
stores the string without validation — and the failure only occurs when
`_infid` is called (no branch assigns the result, an unbound-local error). -/
theorem C7_counterexample_unknown_fid_not_rejected_at_setup :
    jinit 1 false (some "SUU") [] [] = .ok ⟨"SUU", []⟩ ∧
    infid "SUU" 1 (0 : Matrix (Fin 1) (Fin 1) ℂ) 0
      = .error "UnboundLocalError: local variable referenced before assignment" := by
  constructor
  · rfl
  · simp only [infid, if_neg (by decide : ¬("SUU" = "TRACEDIFF")),
      if_neg (by decide : ¬("SUU" = "PSU")), if_neg (by decide : ¬("SUU" = "SU"))]

/-- Claim C7 (amended): an unknown fidelity-kind string is not rejected at
setup: construction succeeds and stores the string verbatim, and every later
`infidelity` call fails with an unbound-local error because no branch of
`_infid` assigns the result. -/
theorem C7_unknown_fid_fails_at_call_time (fid : String) (d : ℕ) (issuper : Bool)
    (Hc_lst : List (ControlTerm d)) (cps : List (List ℚ)) (norm_fac : ℝ)
    (target X : Matrix (Fin d) (Fin d) ℂ)
    (h1 : fid ≠ "TRACEDIFF") (h2 : fid ≠ "PSU") (h3 : fid ≠ "SU") :
    (jinit d issuper (some fid) Hc_lst cps).toOption.map JOPTState.fid_type
      = some fid ∧
    infid fid norm_fac target X
      = .error "UnboundLocalError: local variable referenced before assignment" := by
  constructor
  · rfl
  · simp only [infid, if_neg h1, if_neg h2, if_neg h3]

/-- Claim C7 (witness): the amended statement at the unknown string
`"GATEAU"`. -/
theorem C7_unknown_fid_fails_at_call_time_witness :
    (jinit 1 false (some "GATEAU") [] []).toOption.map JOPTState.fid_type
      = some "GATEAU" ∧
    infid "GATEAU" 1 (0 : Matrix (Fin 1) (Fin 1) ℂ) 0
      = .error "UnboundLocalError: local variable referenced before assignment" :=
  C7_unknown_fid_fails_at_call_time "GATEAU" 1 false [] [] 1 0 0
    (by decide) (by decide) (by decide)

/-- Claim C8 (counterexample): constructing with two control terms but a
single control-parameter entry does not fail: `__init__` succeeds and
`zip(Hc_lst, control_parameters.values())` silently drops the second control
term, leaving one wrapped term. -/
theorem C8_counterexample_mismatched_controls_accepted :
    (jinit 1 false none [ctrlA, ctrlB] [[1]]).toOption.map
        (fun s => s.terms.length)
      = some 1 := rfl

/-- Claim C8 (amended): construction never fails fast on a count mismatch:
for every list of control terms and control-parameter entries, `__init__`
succeeds and keeps `min` of the two counts of wrapped terms, silently
ignoring the extra terms or parameters; guess/bounds length disagreement is
never checked (bounds are not read at all). -/
theorem C8_mismatch_silently_truncated {d : ℕ} (issuper : Bool)
    (fid_opt : Option String) (Hc_lst : List (ControlTerm d))
    (cps : List (List ℚ)) :
    (jinit d issuper fid_opt Hc_lst cps).toOption.map (fun s => s.terms.length)
      = some (min Hc_lst.length cps.length) := by
  simp [jinit, Except.toOption, prepareTerms_length]

/-- Claim C4: the generator builder routes the flat parameter vector by a
running offset — the `k`-th wrapped term keeps the `k`-th control's operator
(control order matches parameter-spec order), its coefficient is called with
exactly the sub-slice `params[offset_k : offset_k + M_k]` where `M_k` is the
`k`-th guess length and `offset_k` the sum of the preceding guess lengths,
and perturbing only the slice of control `k` (two parameter vectors agreeing
outside that slice) leaves every other control's coefficient contribution
unchanged. -/
theorem C4_parameter_routing {d : ℕ} (cs : List (ControlTerm d))
    (gs : List (List ℚ)) (k : ℕ) (hk : k < cs.length) (hg : k < gs.length)
    (t : ℚ) (p q : List ℚ)
    (hagree : ∀ i,
      i < offsetAt gs k ∨ offsetAt gs k + (gs.get ⟨k, hg⟩).length ≤ i →
      p[i]? = q[i]?) :
    (prepareTerms cs gs 0)[k]?
        = some ⟨(cs.get ⟨k, hk⟩).hc,
                helper (cs.get ⟨k, hk⟩).coef (offsetAt gs k)
                  (offsetAt gs k + (gs.get ⟨k, hg⟩).length)⟩ ∧
    ((prepareTerms cs gs 0)[k]?).map (fun c => c.coef t p)
        = some ((cs.get ⟨k, hk⟩).coef t
            (pySlice p (offsetAt gs k)
              (offsetAt gs k + (gs.get ⟨k, hg⟩).length))) ∧
    ∀ j, j < cs.length → j < gs.length → j ≠ k →
      ((prepareTerms cs gs 0)[j]?).map (fun c => c.coef t p)
        = ((prepareTerms cs gs 0)[j]?).map (fun c => c.coef t q) := by
  have hmain := prepareTerms_getElem? cs gs 0 k hk hg
  rw [Nat.zero_add] at hmain
  refine ⟨hmain, ?_, ?_⟩
  · rw [hmain]
    rfl
  · intro j hj hjg hjk
    rw [prepareTerms_getElem? cs gs 0 j hj hjg]
    simp only [Option.map_some', helper]
    have hwin : ∀ i, 0 + offsetAt gs j ≤ i →
        i < 0 + offsetAt gs j + (gs.get ⟨j, hjg⟩).length → p[i]? = q[i]? := by
      intro i hi1 hi2
      apply hagree
      rcases Nat.lt_or_ge j k with hlt | hge
      · left
        have hmono := offsetAt_mono gs (j + 1) k hlt
        rw [offsetAt_succ gs j hjg] at hmono
        omega
      · right
        have hkj : k + 1 ≤ j := by omega
        have hmono := offsetAt_mono gs (k + 1) j hkj
        rw [offsetAt_succ gs k hg] at hmono
        omega
    rw [pySlice_congr p q _ _ hwin]

/-- Claim C4 (witness): two 1×1 controls with guess vectors `[1]` and `[2]`;
control 0 owns slice `[0:1]`, and the vectors `[5, 6]` and `[7, 6]`, which
differ only inside control 0's slice, give the same coefficient for
control 1. -/
theorem C4_parameter_routing_witness :
    ((prepareTerms [ctrlA, ctrlB] [[(1 : ℚ)], [2]] 0)[0]?
        = some ⟨ctrlA.hc, helper ctrlA.coef 0 1⟩) ∧
    (((prepareTerms [ctrlA, ctrlB] [[(1 : ℚ)], [2]] 0)[0]?).map
          (fun c => c.coef 1 [5, 6])
        = some (ctrlA.coef 1 (pySlice [5, 6] 0 1))) ∧
    ∀ j, j < 2 → j < 2 → j ≠ 0 →
      ((prepareTerms [ctrlA, ctrlB] [[(1 : ℚ)], [2]] 0)[j]?).map
          (fun c => c.coef 1 [5, 6])
        = ((prepareTerms [ctrlA, ctrlB] [[(1 : ℚ)], [2]] 0)[j]?).map
          (fun c => c.coef 1 [7, 6]) :=
  C4_parameter_routing [ctrlA, ctrlB] [[(1 : ℚ)], [2]] 0 (by decide) (by decide)
    1 [5, 6] [7, 6]
    (by
      intro i hi
      match i with
      | 0 => exact absurd hi (by decide)
      | 1 => rfl
      | n + 2 => rfl)

end QutipQoc
